import Mathlib

/-!
Shallow embedding of the Monte Carlo Florida-housing simulator
(`src/monte_carlo_housing.py`) over exact rational arithmetic.

Every stochastic primitive (`np.random.uniform`, `np.random.normal`,
`np.random.triangular`, `np.random.random`) consumes exactly one value of an
abstract draw stream `d : Nat → ℚ`; the global NumPy generator seeded once at
construction is modelled by the pair (stream, position), the position advancing
with every draw and across calls, exactly as a process-wide generator does.
Bounded-support draws (uniform, triangular, random) clamp the stream value into
their support; normal draws are unbounded, mirroring their real support.
-/

namespace FLHousing

set_option maxRecDepth 200000

/-- Draw stream: the sequence of values produced by the seeded generator. -/
abbrev Draws := Nat → ℚ

/-- State of the process-wide random generator: its value sequence and the
current read position. -/
structure SimState where
  stream : Draws
  pos : Nat

/-- Maximum of two rationals by a decidable comparison (the built-in `max`). -/
def qmax (a b : ℚ) : ℚ := if a ≤ b then b else a

/-- Minimum of two rationals by a decidable comparison (the built-in `min`). -/
def qmin (a b : ℚ) : ℚ := if a ≤ b then a else b

/-- Clamp a stream value into [0,1] (support of `np.random.random`). -/
def clamp01 (v : ℚ) : ℚ := qmax 0 (qmin 1 v)

/-- Embedding of `np.clip(v, lo, hi)`. -/
def npClip (v lo hi : ℚ) : ℚ := qmin hi (qmax lo v)

/-- Embedding of one `np.random.uniform(lo, hi)` draw: some value in [lo,hi]
selected by the stream value. -/
def uniformDraw (lo hi v : ℚ) : ℚ := lo + (hi - lo) * clamp01 v

/-- Embedding of one `np.random.triangular(lo, mode, hi)` draw: some value in
its support [lo,hi] selected by the stream value (the mode shapes the
distribution, not the support). -/
def triangularDraw (lo mode hi v : ℚ) : ℚ := lo + (hi - lo) * clamp01 v

/-- Embedding of one `np.random.normal(mu, sigma)` draw: unbounded support. -/
def normalDraw (mu sigma v : ℚ) : ℚ := mu + sigma * v

/-- Embedding of one `np.random.random()` draw, a value in [0,1]. -/
def randomDraw (v : ℚ) : ℚ := clamp01 v

/-- Iterated multiplication on ℚ, mirroring Python `(1+r) ** n`. -/
def qpow (a : ℚ) : Nat → ℚ
  | 0 => 1
  | n + 1 => qpow a n * a

/-- Floor of a rational as an integer (`Int.fdiv` is floor division). -/
def ratFloor (q : ℚ) : Int := Int.fdiv q.num q.den

/-- Ceiling of a rational as an integer. -/
def ratCeil (q : ℚ) : Int := -(ratFloor (-q))

/-- Sum of a list of rationals. -/
def listSum : List ℚ → ℚ
  | [] => 0
  | x :: xs => x + listSum xs

/-- Arithmetic mean, as computed by `ndarray.mean()`. -/
def listMean (l : List ℚ) : ℚ := listSum l / (l.length : ℚ)

/-- Insertion into an ascending list. -/
def insertAsc (x : ℚ) : List ℚ → List ℚ
  | [] => [x]
  | y :: ys => if x ≤ y then x :: y :: ys else y :: insertAsc x ys

/-- Ascending insertion sort (the sort underlying `np.percentile`). -/
def sortAsc : List ℚ → List ℚ
  | [] => []
  | x :: xs => insertAsc x (sortAsc xs)

/-- Embedding of `np.percentile(l, q)` with the default linear interpolation:
virtual index h = (n-1)·q/100 into the sorted data, interpolating between the
neighbouring order statistics. -/
def percentile (l : List ℚ) (q : ℚ) : ℚ :=
  let s := sortAsc l
  let h := ((s.length : ℚ) - 1) * q / 100
  let lo := s.getD (Int.toNat (ratFloor h)) 0
  let hi := s.getD (Int.toNat (ratCeil h)) 0
  lo + (h - ((ratFloor h : Int) : ℚ)) * (hi - lo)

/-- Embedding of `np.median` (equals the 50th percentile with linear
interpolation). -/
def npMedian (l : List ℚ) : ℚ := percentile l 50

/-- Boolean non-decreasing test on a list of rationals. -/
def isNondecr : List ℚ → Bool
  | [] => true
  | [_] => true
  | x :: y :: ys => if x ≤ y then isNondecr (y :: ys) else false

/-- Household record (`pd.Series` fields read by the simulator). -/
structure Household where
  household_id : String
  annual_income : ℚ
  savings : ℚ
  credit_score : ℚ
  current_monthly_rent : ℚ
  debt_to_income_ratio : ℚ
  region : String
deriving DecidableEq

/-- Parameters for housing scenario simulation (`HousingScenarioParameters`). -/
structure HousingScenarioParameters where
  scenario_name : String
  home_price_min : ℚ
  home_price_max : ℚ
  down_payment_pct : ℚ
  interest_rate_mean : ℚ
  interest_rate_std : ℚ
  property_tax_rate : ℚ
  hurricane_insurance_annual : ℚ
  hoa_monthly : ℚ
  maintenance_annual_pct : ℚ
  appreciation_mean : ℚ
  appreciation_std : ℚ
  closing_costs_pct : ℚ
deriving DecidableEq

/-- Per-region multipliers (`self.region_adjustments` entries). -/
structure RegionAdjustment where
  price_multiplier : ℚ
  insurance_multiplier : ℚ
deriving DecidableEq

/-- The scenario catalog `self.scenarios`, a lookup by scenario name;
`none` models the `KeyError` a missing key raises. -/
def scenarios (name : String) : Option HousingScenarioParameters :=
  if name = "Keep Renting" then
    some ⟨"Keep Renting", 0, 0, 0, 0, 0, 0, 0, 0, 0, 0, 0, 0⟩
  else if name = "Buy Starter Home" then
    some ⟨"Buy Starter Home", 200000, 300000, 0.05, 0.065, 0.01, 0.009,
      3500, 150, 0.015, 0.04, 0.08, 0.03⟩
  else if name = "Buy Standard Home" then
    some ⟨"Buy Standard Home", 300000, 500000, 0.10, 0.0625, 0.01, 0.009,
      5500, 250, 0.015, 0.045, 0.10, 0.03⟩
  else if name = "Buy Premium Home" then
    some ⟨"Buy Premium Home", 500000, 800000, 0.20, 0.06, 0.008, 0.009,
      8500, 400, 0.02, 0.05, 0.12, 0.03⟩
  else none

/-- Region lookup `self.region_adjustments.get(region, {1.0, 1.0})`. -/
def region_adjustments (region : String) : RegionAdjustment :=
  if region = "Miami-Dade" then ⟨1.35, 1.40⟩
  else if region = "Tampa Bay" then ⟨1.10, 1.20⟩
  else if region = "Orlando" then ⟨1.05, 1.15⟩
  else if region = "Jacksonville" then ⟨0.95, 1.10⟩
  else if region = "Southwest FL" then ⟨1.20, 1.35⟩
  else if region = "Panhandle" then ⟨0.85, 1.25⟩
  else ⟨1.0, 1.0⟩

/-- Simulator object: the sensitivity parameters stored by `__init__`.
`appreciation_rate` and `interest_rate` are stored but, as in the source,
never read by any simulation method. -/
structure Simulator where
  income_growth : ℚ
  insurance_increase : ℚ
  affordability_threshold : ℚ
  appreciation_rate : Option ℚ
  interest_rate : Option ℚ

/-- Mean/median/5th/95th summary dictionary of `simulate_renting` and
`simulate_buying` results. -/
structure DistStats where
  mean : ℚ
  median : ℚ
  percentile_5 : ℚ
  percentile_95 : ℚ
deriving DecidableEq

/-- Full-sample summary: mean, median and the 5th/95th percentiles. -/
def distStatsOf (l : List ℚ) : DistStats :=
  ⟨listMean l, npMedian l, percentile l 5, percentile l 95⟩

/-- Mean/median pair (the buying result's `initial_monthly_cost` entry). -/
structure MeanMedian where
  mean : ℚ
  median : ℚ
deriving DecidableEq

/-! ### Renting simulator (`simulate_renting`) -/

/-- Month-by-month fallback loop of the renting year (source lines 185-191):
walks the remaining months, accruing a month of rent while the fixed ratio
holds, breaking at the first unaffordable month. Returns the rent accrued and
the affordable months counted. -/
def rentMonthLoop (rent monthly_income : ℚ) : Nat → ℚ × Nat
  | 0 => (0, 0)
  | m + 1 =>
    if rent / monthly_income ≤ 0.35 then
      let rest := rentMonthLoop rent monthly_income m
      (rent + rest.1, 1 + rest.2)
    else (0, 0)

/-- Final per-trial data of the renting simulator. -/
structure RentTrialOut where
  final_rent : ℚ
  total_cost : ℚ
  months_affordable : Nat
  pos : Nat

/-- Year loop of one renting trial (source lines 167-193): annual rent and
income shocks, then the yearly affordability test with the month-by-month
fallback and early termination. -/
def rentYearLoop (income_growth : ℚ) (d : Draws) :
    Nat → ℚ → ℚ → ℚ → Nat → Nat → RentTrialOut
  | 0, rent, _income, total_cost, months, p => ⟨rent, total_cost, months, p⟩
  | y + 1, rent, income, total_cost, months, p =>
    let rent1 := rent * (1 + triangularDraw 0.03 0.05 0.10 (d p))
    let income1 := income * (1 + normalDraw income_growth 0.08 (d (p + 1)))
    let monthly_income := income1 / 12
    if rent1 / monthly_income ≤ 0.35 then
      rentYearLoop income_growth d y rent1 income1
        (total_cost + rent1 * 12) (months + 12) (p + 2)
    else
      let mo := rentMonthLoop rent1 monthly_income 12
      ⟨rent1, total_cost + mo.1, months + mo.2, p + 2⟩

/-- One renting trial (source lines 161-197). -/
def rentTrial (income_growth : ℚ) (hh : Household) (H : Nat) (d : Draws)
    (p : Nat) : RentTrialOut :=
  rentYearLoop income_growth d H hh.current_monthly_rent hh.annual_income 0 0 p

/-- The N independent renting trials, threading the generator position. -/
def rentTrials (income_growth : ℚ) (hh : Household) (H : Nat) (d : Draws) :
    Nat → Nat → List RentTrialOut × Nat
  | 0, p => ([], p)
  | n + 1, p =>
    let t := rentTrial income_growth hh H d p
    let rest := rentTrials income_growth hh H d n t.pos
    (t :: rest.1, rest.2)

/-- Result dictionary of `simulate_renting`. -/
structure RentingResults where
  household_id : String
  scenario : String
  simulations : Nat
  time_horizon_years : Nat
  initial_monthly_cost : ℚ
  final_monthly_cost : DistStats
  total_cost_paid : DistStats
  equity_built : DistStats
  probability_affordable : ℚ
  probability_unaffordable : ℚ
  mean_affordable_months : ℚ
deriving DecidableEq

/-- Core of `simulate_renting` (source lines 136-229): runs the trials from
the current generator position and aggregates; returns the results and the
advanced position. -/
def simulate_renting_core (income_growth : ℚ) (hh : Household) (N H : Nat)
    (d : Draws) (p : Nat) : RentingResults × Nat :=
  let out := rentTrials income_growth hh H d N p
  let ts := out.1
  let final_rent := ts.map (·.final_rent)
  let total_paid := ts.map (·.total_cost)
  let months := ts.map (·.months_affordable)
  (⟨hh.household_id, "Keep Renting", N, H, hh.current_monthly_rent,
    distStatsOf final_rent, distStatsOf total_paid, ⟨0, 0, 0, 0⟩,
    ((months.filter (fun m => m = H * 12)).length : ℚ) / (N : ℚ),
    ((months.filter (fun m => m < H * 12)).length : ℚ) / (N : ℚ),
    listMean (months.map (fun m => (m : ℚ)))⟩, out.2)

/-! ### Buying simulator (`simulate_buying`) -/

/-- Home price draw scaled by the region multiplier
(source lines 269-270 and 520-521). -/
def drawnHomePrice (params : HousingScenarioParameters)
    (adj : RegionAdjustment) (v : ℚ) : ℚ :=
  uniformDraw params.home_price_min params.home_price_max v
    * adj.price_multiplier

/-- Mortgage rate draw with credit adjustment and clipping
(source lines 290-292 and 537-539). -/
def drawnInterestRate (params : HousingScenarioParameters)
    (credit_score v : ℚ) : ℚ :=
  npClip (normalDraw (params.interest_rate_mean
      + (750 - credit_score) * 0.0001) params.interest_rate_std v) 0.03 0.10

/-- Level-payment amortization payment for a 30-year (360-month) loan, with
the linear fallback when the monthly rate is not positive
(source lines 295-300 and 542-547). -/
def monthlyMortgagePayment (loan_amount interest_rate : ℚ) : ℚ :=
  let monthly_rate := interest_rate / 12
  if 0 < monthly_rate then
    loan_amount * (monthly_rate * qpow (1 + monthly_rate) 360)
      / (qpow (1 + monthly_rate) 360 - 1)
  else loan_amount / 360

/-- Output of the buying month loop. -/
structure BuyMonthOut where
  total_costs : ℚ
  loan_balance : ℚ
  months_affordable : Nat
  defaulted : Bool
  pos : Nat

/-- Month loop of the buying year (source lines 345-357): the housing ratio
and total monthly cost are fixed for the year; affordable months pay and
amortize, unaffordable months draw the 30% default chance or are skipped. -/
def buyMonthLoop (threshold housing_ratio total_monthly interest_rate
    monthly_mortgage : ℚ) (d : Draws) :
    Nat → ℚ → ℚ → Nat → Nat → BuyMonthOut
  | 0, tc, bal, months, p => ⟨tc, bal, months, false, p⟩
  | m + 1, tc, bal, months, p =>
    if housing_ratio ≤ threshold then
      let interest_payment := bal * (interest_rate / 12)
      let principal_payment := monthly_mortgage - interest_payment
      buyMonthLoop threshold housing_ratio total_monthly interest_rate
        monthly_mortgage d m (tc + total_monthly) (bal - principal_payment)
        (months + 1) p
    else if randomDraw (d p) < 0.3 then ⟨tc, bal, months, true, p + 1⟩
    else
      buyMonthLoop threshold housing_ratio total_monthly interest_rate
        monthly_mortgage d m tc bal months (p + 1)

/-- Evolving per-trial state of the buying year loop. -/
structure BuyState where
  income : ℚ
  home_value : ℚ
  loan_balance : ℚ
  monthly_insurance : ℚ
  total_monthly : ℚ
  total_costs : ℚ
  months_affordable : Nat
  defaulted : Bool

/-- Year loop of one buying trial (source lines 317-360): annual income,
appreciation and insurance shocks, property-tax and noisy maintenance
recomputation, then the month loop; a defaulted month loop ends the trial. -/
def buyYearLoop (income_growth insurance_increase threshold : ℚ)
    (params : HousingScenarioParameters)
    (interest_rate monthly_mortgage monthly_hoa : ℚ) (d : Draws) :
    Nat → BuyState → Nat → BuyState × Nat
  | 0, st, p => (st, p)
  | y + 1, st, p =>
    let income := st.income * (1 + normalDraw income_growth 0.08 (d p))
    let home_value := st.home_value
      * (1 + normalDraw params.appreciation_mean params.appreciation_std (d (p + 1)))
    let insurance_mode := npClip insurance_increase 0.03 0.12
    let monthly_insurance := st.monthly_insurance
      * (1 + triangularDraw 0.03 insurance_mode 0.12 (d (p + 2)))
    let monthly_property_tax := home_value * params.property_tax_rate / 12
    let monthly_maintenance := home_value * params.maintenance_annual_pct / 12
      * uniformDraw 0.8 1.5 (d (p + 3))
    let total_monthly := monthly_mortgage + monthly_property_tax
      + monthly_insurance + monthly_hoa + monthly_maintenance
    let monthly_income := income / 12
    let housing_ratio := total_monthly / monthly_income
    let mo := buyMonthLoop threshold housing_ratio total_monthly interest_rate
      monthly_mortgage d 12 st.total_costs st.loan_balance
      st.months_affordable (p + 4)
    let st1 : BuyState := ⟨income, home_value, mo.loan_balance,
      monthly_insurance, total_monthly, mo.total_costs, mo.months_affordable,
      mo.defaulted⟩
    if mo.defaulted then (st1, mo.pos)
    else
      buyYearLoop income_growth insurance_increase threshold params
        interest_rate monthly_mortgage monthly_hoa d y st1 mo.pos

/-- Final per-trial data of the buying simulator (the entries written to the
`final_equity`, `monthly_costs`, `total_paid`, `default_occurred` and
`months_solvent` arrays). -/
structure BuyTrialOut where
  final_equity : ℚ
  monthly_cost : ℚ
  total_paid : ℚ
  default_occurred : Bool
  months_solvent : Nat
  pos : Nat
deriving DecidableEq

/-- Post-gate portion of one buying trial (source lines 286-360): mortgage
setup from the drawn price and rate, initial cost components, then the year
loop; returns the final trial state and generator position. -/
def buyTrialLoopOut (income_growth insurance_increase threshold : ℚ)
    (params : HousingScenarioParameters) (adj : RegionAdjustment)
    (hh : Household) (H : Nat) (d : Draws) (p : Nat) : BuyState × Nat :=
  let home_price := drawnHomePrice params adj (d p)
  let down_payment := home_price * params.down_payment_pct
  let closing_costs := home_price * params.closing_costs_pct
  let loan_amount := home_price - down_payment
  let interest_rate := drawnInterestRate params hh.credit_score (d (p + 1))
  let monthly_mortgage := monthlyMortgagePayment loan_amount interest_rate
  let monthly_property_tax := home_price * params.property_tax_rate / 12
  let monthly_insurance :=
    params.hurricane_insurance_annual * adj.insurance_multiplier / 12
  let monthly_hoa := params.hoa_monthly
  let monthly_maintenance := home_price * params.maintenance_annual_pct / 12
  let total_monthly := monthly_mortgage + monthly_property_tax
    + monthly_insurance + monthly_hoa + monthly_maintenance
  let st0 : BuyState := ⟨hh.annual_income, home_price, loan_amount,
    monthly_insurance, total_monthly, down_payment + closing_costs, 0, false⟩
  buyYearLoop income_growth insurance_increase threshold params
    interest_rate monthly_mortgage monthly_hoa d H st0 (p + 2)

/-- One buying trial (source lines 267-371): price draw and entry feasibility
gate, then the post-gate loop and terminal equity accounting. -/
def buyTrial (income_growth insurance_increase threshold : ℚ)
    (params : HousingScenarioParameters) (adj : RegionAdjustment)
    (hh : Household) (H : Nat) (d : Draws) (p : Nat) : BuyTrialOut :=
  let home_price := drawnHomePrice params adj (d p)
  let down_payment := home_price * params.down_payment_pct
  let closing_costs := home_price * params.closing_costs_pct
  if hh.savings < down_payment + closing_costs then
    ⟨if hh.savings ≥ closing_costs then -closing_costs else -hh.savings,
      0, qmin hh.savings closing_costs, true, 0, p + 1⟩
  else
    let out := buyTrialLoopOut income_growth insurance_increase threshold
      params adj hh H d p
    let st := out.1
    let final_equity :=
      if st.defaulted then
        -(down_payment + closing_costs + st.total_costs * 0.2)
      else st.home_value - qmax 0 st.loan_balance
    ⟨final_equity, st.total_monthly, st.total_costs, st.defaulted,
      st.months_affordable, out.2⟩

/-- The N independent buying trials, threading the generator position. -/
def buyTrials (income_growth insurance_increase threshold : ℚ)
    (params : HousingScenarioParameters) (adj : RegionAdjustment)
    (hh : Household) (H : Nat) (d : Draws) :
    Nat → Nat → List BuyTrialOut × Nat
  | 0, p => ([], p)
  | n + 1, p =>
    let t := buyTrial income_growth insurance_increase threshold params adj
      hh H d p
    let rest := buyTrials income_growth insurance_increase threshold params
      adj hh H d n t.pos
    (t :: rest.1, rest.2)

/-- Result dictionary of `simulate_buying`. -/
structure BuyingResults where
  household_id : String
  scenario : String
  simulations : Nat
  time_horizon_years : Nat
  initial_monthly_cost : MeanMedian
  final_monthly_cost : DistStats
  total_cost_paid : DistStats
  equity_built : DistStats
  probability_affordable : ℚ
  probability_default : ℚ
  probability_negative_equity : ℚ
  mean_affordable_months : ℚ
deriving DecidableEq

/-- Aggregation step of `simulate_buying` (source lines 374-405): monthly-cost
statistics over the non-defaulted mask with scalar fallback 0; equity
mean/median over the non-defaulted mask falling back to the full set, equity
percentiles over the full set; total-cost statistics over the full set. -/
def aggregateBuying (hh : Household) (scenario_name : String) (N H : Nat)
    (ts : List BuyTrialOut) : BuyingResults :=
  let monthly_costs := ts.map (·.monthly_cost)
  let total_paid := ts.map (·.total_paid)
  let final_equity := ts.map (·.final_equity)
  let nd := ts.filter (fun t => !t.default_occurred)
  let mc_nd := nd.map (·.monthly_cost)
  let eq_nd := nd.map (·.final_equity)
  let months := ts.map (·.months_solvent)
  ⟨hh.household_id, scenario_name, N, H,
    ⟨if 0 < nd.length then listMean mc_nd else 0,
      if 0 < nd.length then npMedian mc_nd else 0⟩,
    ⟨if 0 < nd.length then listMean mc_nd else 0,
      if 0 < nd.length then npMedian mc_nd else 0,
      if 0 < nd.length then percentile mc_nd 5 else 0,
      if 0 < nd.length then percentile mc_nd 95 else 0⟩,
    distStatsOf total_paid,
    ⟨if 0 < nd.length then listMean eq_nd else listMean final_equity,
      if 0 < nd.length then npMedian eq_nd else npMedian final_equity,
      percentile final_equity 5,
      percentile final_equity 95⟩,
    ((months.filter (fun m => m = H * 12)).length : ℚ) / (N : ℚ),
    ((ts.filter (·.default_occurred)).length : ℚ) / (N : ℚ),
    ((final_equity.filter (fun e => e < 0)).length : ℚ) / (N : ℚ),
    listMean (months.map (fun m => (m : ℚ)))⟩

/-- Core of `simulate_buying` (source lines 231-407): catalog lookup (a
missing key raises, modelled as `none`), region adjustment, N trials and
aggregation. -/
def simulate_buying_core (income_growth insurance_increase threshold : ℚ)
    (hh : Household) (scenario_name : String) (N H : Nat) (d : Draws)
    (p : Nat) : Option (BuyingResults × Nat) :=
  match scenarios scenario_name with
  | none => none
  | some params =>
    let adj := region_adjustments hh.region
    let out := buyTrials income_growth insurance_increase threshold params adj
      hh H d N p
    some (aggregateBuying hh scenario_name N H out.1, out.2)

/-- Tagged result of `simulate_household` (a renting or a buying result
dictionary). -/
inductive ResultRecord
  | renting (res : RentingResults)
  | buying (res : BuyingResults)
deriving DecidableEq

/-- Core of `simulate_household` (source lines 409-431): dispatch by scenario
name, renting for 'Keep Renting' and buying otherwise. -/
def simulate_household_core (income_growth insurance_increase threshold : ℚ)
    (hh : Household) (scenario : String) (N H : Nat) (d : Draws) (p : Nat) :
    Option (ResultRecord × Nat) :=
  if scenario = "Keep Renting" then
    let out := simulate_renting_core income_growth hh N H d p
    some (.renting out.1, out.2)
  else
    match simulate_buying_core income_growth insurance_increase threshold hh
      scenario N H d p with
    | none => none
    | some out => some (.buying out.1, out.2)

/-! ### Timeline projector (`simulate_timeline`) -/

/-- Year-indexed columns retained per trial by the timeline projector:
`yearly_equity`, `yearly_costs` and `yearly_total_paid` rows. -/
structure TimelineCols where
  equity : List ℚ
  costs : List ℚ
  total_paid : List ℚ
deriving DecidableEq

/-- Renting years of a timeline trial (source lines 502-516): per year the
rent and income shocks, cost accumulation, and the per-year records
(equity 0, current rent, cumulative cost). -/
def timelineRentYears (income_growth : ℚ) (d : Draws) :
    Nat → ℚ → ℚ → ℚ → Nat → TimelineCols × Nat
  | 0, _rent, _income, _cum, p => (⟨[], [], []⟩, p)
  | y + 1, rent, income, cum, p =>
    let rent1 := rent * (1 + triangularDraw 0.03 0.05 0.10 (d p))
    let income1 := income * (1 + normalDraw income_growth 0.08 (d (p + 1)))
    let cum1 := cum + rent1 * 12
    let rest := timelineRentYears income_growth d y rent1 income1 cum1 (p + 2)
    (⟨0 :: rest.1.equity, rent1 :: rest.1.costs, cum1 :: rest.1.total_paid⟩,
      rest.2)

/-- One renting timeline trial (source lines 492-516), including the year-0
row (equity 0, starting rent, total paid 0). -/
def timelineRentTrial (income_growth : ℚ) (hh : Household) (H : Nat)
    (d : Draws) (p : Nat) : TimelineCols × Nat :=
  let rest := timelineRentYears income_growth d H hh.current_monthly_rent
    hh.annual_income 0 p
  (⟨0 :: rest.1.equity, hh.current_monthly_rent :: rest.1.costs,
    0 :: rest.1.total_paid⟩, rest.2)

/-- Month loop of a buying timeline year (source lines 584-588): every month
amortizes and accrues the total monthly cost, with no affordability check. -/
def timelineBuyMonths (interest_rate monthly_mortgage total_monthly : ℚ) :
    Nat → ℚ → ℚ → ℚ × ℚ
  | 0, bal, cum => (bal, cum)
  | m + 1, bal, cum =>
    let interest_payment := bal * (interest_rate / 12)
    let principal_payment := monthly_mortgage - interest_payment
    timelineBuyMonths interest_rate monthly_mortgage total_monthly m
      (bal - principal_payment) (cum + total_monthly)

/-- Buying years of a timeline trial (source lines 563-595): annual shocks
(income draw consumed but unused downstream, appreciation, insurance),
maintenance without the noise multiplier, twelve paying months, then the
end-of-year equity, cost and cumulative records. -/
def timelineBuyYears (income_growth insurance_increase : ℚ)
    (params : HousingScenarioParameters)
    (interest_rate monthly_mortgage monthly_hoa : ℚ) (d : Draws) :
    Nat → ℚ → ℚ → ℚ → ℚ → ℚ → Nat → TimelineCols × Nat
  | 0, _income, _value, _bal, _ins, _cum, p => (⟨[], [], []⟩, p)
  | y + 1, income, value, bal, ins, cum, p =>
    let income1 := income * (1 + normalDraw income_growth 0.08 (d p))
    let value1 := value
      * (1 + normalDraw params.appreciation_mean params.appreciation_std (d (p + 1)))
    let insurance_mode := npClip insurance_increase 0.03 0.12
    let ins1 := ins * (1 + triangularDraw 0.03 insurance_mode 0.12 (d (p + 2)))
    let monthly_property_tax := value1 * params.property_tax_rate / 12
    let monthly_maintenance := value1 * params.maintenance_annual_pct / 12
    let total_monthly := monthly_mortgage + monthly_property_tax + ins1
      + monthly_hoa + monthly_maintenance
    let mo := timelineBuyMonths interest_rate monthly_mortgage total_monthly
      12 bal cum
    let equity := value1 - qmax 0 mo.1
    let rest := timelineBuyYears income_growth insurance_increase params
      interest_rate monthly_mortgage monthly_hoa d y income1 value1 mo.1 ins1
      mo.2 (p + 3)
    (⟨equity :: rest.1.equity, total_monthly :: rest.1.costs,
      mo.2 :: rest.1.total_paid⟩, rest.2)

/-- One buying timeline trial (source lines 518-595): entry gate with flat
loss rows on failure, otherwise mortgage setup, the year-0 row (equity = down
payment) and the buying years. -/
def timelineBuyTrial (income_growth insurance_increase : ℚ)
    (params : HousingScenarioParameters) (adj : RegionAdjustment)
    (hh : Household) (H : Nat) (d : Draws) (p : Nat) : TimelineCols × Nat :=
  let home_price := drawnHomePrice params adj (d p)
  let down_payment := home_price * params.down_payment_pct
  let closing_costs := home_price * params.closing_costs_pct
  if hh.savings < down_payment + closing_costs then
    (⟨List.replicate (H + 1) (-(qmin hh.savings closing_costs)),
      List.replicate (H + 1) 0,
      List.replicate (H + 1) (qmin hh.savings closing_costs)⟩, p + 1)
  else
    let loan_amount := home_price - down_payment
    let interest_rate := drawnInterestRate params hh.credit_score (d (p + 1))
    let monthly_mortgage := monthlyMortgagePayment loan_amount interest_rate
    let monthly_insurance :=
      params.hurricane_insurance_annual * adj.insurance_multiplier / 12
    let monthly_hoa := params.hoa_monthly
    let cum0 := down_payment + closing_costs
    let year0_cost := monthly_mortgage
      + home_price * params.property_tax_rate / 12 + monthly_insurance
      + monthly_hoa
    let rest := timelineBuyYears income_growth insurance_increase params
      interest_rate monthly_mortgage monthly_hoa d H hh.annual_income
      home_price loan_amount monthly_insurance cum0 (p + 2)
    (⟨down_payment :: rest.1.equity, year0_cost :: rest.1.costs,
      cum0 :: rest.1.total_paid⟩, rest.2)

/-- One timeline trial: the per-trial branch of the simulation loop
(source lines 491-595). -/
def timelineTrial (income_growth insurance_increase : ℚ)
    (params : HousingScenarioParameters) (adj : RegionAdjustment)
    (hh : Household) (scenario_name : String) (H : Nat) (d : Draws)
    (p : Nat) : TimelineCols × Nat :=
  if scenario_name = "Keep Renting" then
    timelineRentTrial income_growth hh H d p
  else timelineBuyTrial income_growth insurance_increase params adj hh H d p

/-- The N timeline trials, threading the generator position. -/
def timelineTrials (income_growth insurance_increase : ℚ)
    (params : HousingScenarioParameters) (adj : RegionAdjustment)
    (hh : Household) (scenario_name : String) (H : Nat) (d : Draws) :
    Nat → Nat → List TimelineCols × Nat
  | 0, p => ([], p)
  | n + 1, p =>
    let t := timelineTrial income_growth insurance_increase params adj hh
      scenario_name H d p
    let rest := timelineTrials income_growth insurance_increase params adj hh
      scenario_name H d n t.2
    (t.1 :: rest.1, rest.2)

/-- Percentile across trials of one year column of a retained series. -/
def colPercentile (rows : List TimelineCols) (proj : TimelineCols → List ℚ)
    (y : Nat) (q : ℚ) : ℚ :=
  percentile (rows.map (fun row => (proj row).getD y 0)) q

/-- Pessimistic/expected/optimistic band of the timeline output. -/
structure TimelineSeries where
  pessimistic : List ℚ
  expected : List ℚ
  optimistic : List ℚ
deriving DecidableEq

/-- Result dictionary of `simulate_timeline`. -/
structure TimelineResults where
  scenario : String
  years : List Nat
  equity : TimelineSeries
  monthly_costs : TimelineSeries
  cumulative_costs : TimelineSeries
deriving DecidableEq

/-- Core of `simulate_timeline` (source lines 458-629): catalog lookup, N
trials with yearly tracking, then per-year 5th/50th/95th percentile bands;
for the cost series the pessimistic label is the 95th percentile, for equity
the 5th. -/
def simulate_timeline_core (income_growth insurance_increase : ℚ)
    (hh : Household) (scenario_name : String) (N H : Nat) (d : Draws)
    (p : Nat) : Option (TimelineResults × Nat) :=
  match scenarios scenario_name with
  | none => none
  | some params =>
    let adj := region_adjustments hh.region
    let out := timelineTrials income_growth insurance_increase params adj hh
      scenario_name H d N p
    let rows := out.1
    let years := List.range (H + 1)
    some (⟨scenario_name, years,
      ⟨years.map (fun y => colPercentile rows (·.equity) y 5),
        years.map (fun y => colPercentile rows (·.equity) y 50),
        years.map (fun y => colPercentile rows (·.equity) y 95)⟩,
      ⟨years.map (fun y => colPercentile rows (·.costs) y 95),
        years.map (fun y => colPercentile rows (·.costs) y 50),
        years.map (fun y => colPercentile rows (·.costs) y 5)⟩,
      ⟨years.map (fun y => colPercentile rows (·.total_paid) y 95),
        years.map (fun y => colPercentile rows (·.total_paid) y 50),
        years.map (fun y => colPercentile rows (·.total_paid) y 5)⟩⟩, out.2)

/-! ### Simulator methods

The wrappers read exactly the stored sensitivity fields each source method
reads, and thread the process-wide generator state. -/

/-- Method `simulate_renting` on the simulator object. -/
def Simulator.simulate_renting (s : Simulator) (hh : Household) (N H : Nat)
    (st : SimState) : RentingResults × SimState :=
  let out := simulate_renting_core s.income_growth hh N H st.stream st.pos
  (out.1, ⟨st.stream, out.2⟩)

/-- Method `simulate_buying` on the simulator object. -/
def Simulator.simulate_buying (s : Simulator) (hh : Household)
    (scenario_name : String) (N H : Nat) (st : SimState) :
    Option (BuyingResults × SimState) :=
  match simulate_buying_core s.income_growth s.insurance_increase
    s.affordability_threshold hh scenario_name N H st.stream st.pos with
  | none => none
  | some out => some (out.1, ⟨st.stream, out.2⟩)

/-- Method `simulate_household` on the simulator object. -/
def Simulator.simulate_household (s : Simulator) (hh : Household)
    (scenario : String) (N H : Nat) (st : SimState) :
    Option (ResultRecord × SimState) :=
  match simulate_household_core s.income_growth s.insurance_increase
    s.affordability_threshold hh scenario N H st.stream st.pos with
  | none => none
  | some out => some (out.1, ⟨st.stream, out.2⟩)

/-- Method `simulate_timeline` on the simulator object. -/
def Simulator.simulate_timeline (s : Simulator) (hh : Household)
    (scenario_name : String) (N H : Nat) (st : SimState) :
    Option (TimelineResults × SimState) :=
  match simulate_timeline_core s.income_growth s.insurance_increase hh
    scenario_name N H st.stream st.pos with
  | none => none
  | some out => some (out.1, ⟨st.stream, out.2⟩)

/-! ### Concrete inputs used below -/

/-- The 'Buy Starter Home' catalog entry, as a standalone record. -/
def exStarter : HousingScenarioParameters :=
  ⟨"Buy Starter Home", 200000, 300000, 0.05, 0.065, 0.01, 0.009, 3500, 150,
    0.015, 0.04, 0.08, 0.03⟩

/-- Simulator with the default construction parameters. -/
def exSimulator : Simulator := ⟨0.04, 0.08, 0.5, none, none⟩

/-- Simulator identical to `exSimulator` except for the two optional
override fields. -/
def exSimulatorOverrides : Simulator := ⟨0.04, 0.08, 0.5, some (1/50), some (7/100)⟩

/-- Renter household. -/
def exHHRent : Household := ⟨"h-rent", 120000, 0, 700, 1000, 0.3, "Orlando"⟩

/-- Buyer household with savings between the entry costs of a 200k and a
300k starter draw. -/
def exHHAgg : Household := ⟨"h-agg", 120000, 20000, 750, 1000, 0.2, "Nowhere"⟩

/-- Wealthy buyer household that always passes the entry gate. -/
def exHHNeg : Household := ⟨"h-neg", 120000, 1000000, 750, 1000, 0.2, "Nowhere"⟩

/-- Household with no savings, failing every entry gate. -/
def exHHGate : Household := ⟨"h-gate", 60000, 0, 700, 1500, 0.3, "Orlando"⟩

/-- Stream enumerating the naturals. -/
def exDSeq : Draws := fun n => (n : ℚ)

/-- All-zero stream. -/
def exDZero : Draws := fun _ => 0

/-- Stream driving one failed-entry trial (value 1 pushes the price draw to
its upper bound) followed by one trial that passes the gate at the lower
bound with the rate clipped to its floor. -/
def exDAgg : Draws := fun n => if n = 0 then 1 else if n = 2 then -7/2 else 0

/-- Stream forcing a first-year appreciation draw below -100% (hugely
negative home value, hence negative running costs) and a second-year income
collapse followed by a sub-0.3 default draw. -/
def exDNeg : Draws := fun n =>
  if n = 1 then -7/2
  else if n = 2 then -1/2
  else if n = 3 then -12500013
  else if n = 6 then -103/8
  else if n = 7 then -13
  else 0

/-- Stream whose single income-collapse draw makes the second simulated
month unaffordable while keeping all appreciation factors non-negative. -/
def exDDef : Draws := fun n => if n = 2 then -103/8 else 0

/-! ### Basic bounds for the stochastic primitives -/

theorem clamp01_nonneg (v : ℚ) : 0 ≤ clamp01 v := by
  unfold clamp01 qmax qmin
  split_ifs <;> linarith

theorem clamp01_le_one (v : ℚ) : clamp01 v ≤ 1 := by
  unfold clamp01 qmax qmin
  split_ifs <;> linarith

theorem uniformDraw_ge (lo hi v : ℚ) (h : lo ≤ hi) : lo ≤ uniformDraw lo hi v := by
  have h0 := clamp01_nonneg v
  have h1 := clamp01_le_one v
  unfold uniformDraw
  nlinarith

theorem uniformDraw_le (lo hi v : ℚ) (h : lo ≤ hi) : uniformDraw lo hi v ≤ hi := by
  have h0 := clamp01_nonneg v
  have h1 := clamp01_le_one v
  unfold uniformDraw
  nlinarith

theorem triangularDraw_ge (lo mode hi v : ℚ) (h : lo ≤ hi) :
    lo ≤ triangularDraw lo mode hi v := by
  have h0 := clamp01_nonneg v
  have h1 := clamp01_le_one v
  unfold triangularDraw
  nlinarith

theorem npClip_ge (v lo hi : ℚ) (h : lo ≤ hi) : lo ≤ npClip v lo hi := by
  unfold npClip qmin qmax
  split_ifs <;> linarith

theorem npClip_le (v lo hi : ℚ) (h : lo ≤ hi) : npClip v lo hi ≤ hi := by
  unfold npClip qmin qmax
  split_ifs <;> linarith

theorem qpow_nonneg (a : ℚ) (h : 0 ≤ a) : ∀ n, 0 ≤ qpow a n
  | 0 => by unfold qpow; norm_num
  | n + 1 => by
    unfold qpow
    exact mul_nonneg (qpow_nonneg a h n) h

theorem one_le_qpow (a : ℚ) (h : 1 ≤ a) : ∀ n, 1 ≤ qpow a n
  | 0 => by unfold qpow; norm_num
  | n + 1 => by
    unfold qpow
    nlinarith [one_le_qpow a h n]

theorem one_lt_qpow (a : ℚ) (h : 1 < a) (n : Nat) : 1 < qpow a (n + 1) := by
  unfold qpow
  nlinarith [one_le_qpow a (le_of_lt h) n]

theorem drawnInterestRate_ge (params : HousingScenarioParameters)
    (c v : ℚ) : 3/100 ≤ drawnInterestRate params c v := by
  have := npClip_ge (normalDraw (params.interest_rate_mean
    + (750 - c) * 0.0001) params.interest_rate_std v) 0.03 0.10 (by norm_num)
  unfold drawnInterestRate
  linarith

theorem drawnInterestRate_le (params : HousingScenarioParameters)
    (c v : ℚ) : drawnInterestRate params c v ≤ 1/10 := by
  have := npClip_le (normalDraw (params.interest_rate_mean
    + (750 - c) * 0.0001) params.interest_rate_std v) 0.03 0.10 (by norm_num)
  unfold drawnInterestRate
  linarith

theorem monthlyMortgagePayment_nonneg (loan rate : ℚ) (hl : 0 ≤ loan)
    (hr : 3/100 ≤ rate) : 0 ≤ monthlyMortgagePayment loan rate := by
  have hmr : 0 < rate / 12 := by linarith
  have hq : 1 ≤ qpow (1 + rate / 12) 360 :=
    one_le_qpow (1 + rate / 12) (by linarith) 360
  unfold monthlyMortgagePayment
  rw [if_pos hmr]
  apply div_nonneg
  · exact mul_nonneg hl (mul_nonneg (le_of_lt hmr)
      (qpow_nonneg (1 + rate / 12) (by linarith) 360))
  · linarith

/-- Claim C10: in both the buying simulator and the Timeline Projector the
drawn mortgage rate is clipped into [0.03, 0.10], hence the monthly rate is
strictly positive, the amortization denominator (1+r)^360 - 1 is nonzero,
and the linear fallback branch of the payment computation is unreachable:
the payment always equals the level-payment formula. -/
theorem C10_mortgage_rate_clipped (params : HousingScenarioParameters)
    (credit_score v loan : ℚ) :
    (3/100 ≤ drawnInterestRate params credit_score v
      ∧ drawnInterestRate params credit_score v ≤ 1/10)
    ∧ 0 < drawnInterestRate params credit_score v / 12
    ∧ qpow (1 + drawnInterestRate params credit_score v / 12) 360 - 1 ≠ 0
    ∧ monthlyMortgagePayment loan (drawnInterestRate params credit_score v) =
        loan * ((drawnInterestRate params credit_score v / 12)
            * qpow (1 + drawnInterestRate params credit_score v / 12) 360)
          / (qpow (1 + drawnInterestRate params credit_score v / 12) 360 - 1) := by
  have h1 := drawnInterestRate_ge params credit_score v
  have h2 := drawnInterestRate_le params credit_score v
  have hmr : 0 < drawnInterestRate params credit_score v / 12 := by linarith
  have hq : 1 < qpow (1 + drawnInterestRate params credit_score v / 12) 360 :=
    one_lt_qpow _ (by linarith) 359
  refine ⟨⟨h1, h2⟩, hmr, by linarith, ?_⟩
  unfold monthlyMortgagePayment
  rw [if_pos hmr]

/-- Claim C2: a buying trial whose drawn, region-scaled home price makes
down payment + closing costs exceed the household's savings terminates
immediately with the default flag set, equity -min(savings, closing costs),
zero months solvent and total cost min(savings, closing costs); exactly one
draw is consumed and the outcome is independent of the horizon. -/
theorem C2_failed_entry (ig ii thr : ℚ) (params : HousingScenarioParameters)
    (adj : RegionAdjustment) (hh : Household) (H H' : Nat) (d : Draws)
    (p : Nat)
    (hgate : hh.savings < drawnHomePrice params adj (d p) * params.down_payment_pct
      + drawnHomePrice params adj (d p) * params.closing_costs_pct) :
    buyTrial ig ii thr params adj hh H d p =
      ⟨-(qmin hh.savings (drawnHomePrice params adj (d p) * params.closing_costs_pct)),
        0, qmin hh.savings (drawnHomePrice params adj (d p) * params.closing_costs_pct),
        true, 0, p + 1⟩
    ∧ buyTrial ig ii thr params adj hh H d p = buyTrial ig ii thr params adj hh H' d p := by
  constructor
  · show (if hh.savings < _ then _ else _) = _
    rw [if_pos hgate]
    simp only [BuyTrialOut.mk.injEq, and_true, true_and]
    unfold qmin
    split_ifs with h1 h2 h2
    · have he : hh.savings = drawnHomePrice params adj (d p) * params.closing_costs_pct :=
        le_antisymm h2 h1
      rw [he]
    · rfl
    · rfl
    · linarith
  · show (if hh.savings < _ then _ else _) = (if hh.savings < _ then _ else _)
    rw [if_pos hgate, if_pos hgate]

/-- Witness for C2 at a concrete saving-less household. -/
theorem C2_failed_entry_witness :
    exHHGate.savings < drawnHomePrice exStarter (region_adjustments exHHGate.region)
        (exDZero 0) * exStarter.down_payment_pct
      + drawnHomePrice exStarter (region_adjustments exHHGate.region)
        (exDZero 0) * exStarter.closing_costs_pct
    ∧ buyTrial 0.04 0.08 0.5 exStarter (region_adjustments exHHGate.region)
        exHHGate 3 exDZero 0 =
      ⟨-(qmin exHHGate.savings (drawnHomePrice exStarter
          (region_adjustments exHHGate.region) (exDZero 0) * exStarter.closing_costs_pct)),
        0, qmin exHHGate.savings (drawnHomePrice exStarter
          (region_adjustments exHHGate.region) (exDZero 0) * exStarter.closing_costs_pct),
        true, 0, 1⟩ :=
  ⟨by with_unfolding_all decide,
    (C2_failed_entry 0.04 0.08 0.5 exStarter (region_adjustments exHHGate.region)
      exHHGate 3 5 exDZero 0 (by with_unfolding_all decide)).1⟩

/-- Claim C8: the stored appreciation-rate and interest-rate overrides are
never consulted: two simulators agreeing on income growth, insurance
increase and affordability threshold but differing arbitrarily in the two
override fields produce identical results on every method, for every input
and generator state. -/
theorem C8_unused_overrides (s1 s2 : Simulator) (hh : Household)
    (scen : String) (N H : Nat) (st : SimState)
    (h1 : s1.income_growth = s2.income_growth)
    (h2 : s1.insurance_increase = s2.insurance_increase)
    (h3 : s1.affordability_threshold = s2.affordability_threshold) :
    s1.simulate_household hh scen N H st = s2.simulate_household hh scen N H st
    ∧ s1.simulate_renting hh N H st = s2.simulate_renting hh N H st
    ∧ s1.simulate_buying hh scen N H st = s2.simulate_buying hh scen N H st
    ∧ s1.simulate_timeline hh scen N H st = s2.simulate_timeline hh scen N H st := by
  obtain ⟨a1, b1, c1, x1, y1⟩ := s1
  obtain ⟨a2, b2, c2, x2, y2⟩ := s2
  simp only at h1 h2 h3
  subst h1; subst h2; subst h3
  exact ⟨rfl, rfl, rfl, rfl⟩

/-- Witness for C8: the default simulator against one whose two override
fields are populated. -/
theorem C8_unused_overrides_witness :
    exSimulator.income_growth = exSimulatorOverrides.income_growth
    ∧ exSimulator.insurance_increase = exSimulatorOverrides.insurance_increase
    ∧ exSimulator.affordability_threshold = exSimulatorOverrides.affordability_threshold
    ∧ exSimulator.simulate_household exHHRent "Keep Renting" 2 3 ⟨exDSeq, 0⟩ =
        exSimulatorOverrides.simulate_household exHHRent "Keep Renting" 2 3 ⟨exDSeq, 0⟩
    ∧ exSimulator.simulate_timeline exHHRent "Buy Starter Home" 2 3 ⟨exDSeq, 0⟩ =
        exSimulatorOverrides.simulate_timeline exHHRent "Buy Starter Home" 2 3 ⟨exDSeq, 0⟩ :=
  ⟨rfl, rfl, rfl,
    (C8_unused_overrides exSimulator exSimulatorOverrides exHHRent
      "Keep Renting" 2 3 ⟨exDSeq, 0⟩ rfl rfl rfl).1,
    (C8_unused_overrides exSimulator exSimulatorOverrides exHHRent
      "Buy Starter Home" 2 3 ⟨exDSeq, 0⟩ rfl rfl rfl).2.2.2⟩

/-- Claim C3 (counterexample): the generator is seeded once at construction
and its state advances across calls, so two successive calls of the same
invocation on the same simulator need not agree: here the two renting
results differ. -/
theorem C3_counterexample_repeated_calls :
    ((exSimulator.simulate_renting exHHRent 1 1 ⟨exDSeq, 0⟩).1 ≠
      (exSimulator.simulate_renting exHHRent 1 1
        (exSimulator.simulate_renting exHHRent 1 1 ⟨exDSeq, 0⟩).2).1) := by
  with_unfolding_all decide

/-- Claim C3 (amended): the simulation output is a pure function of the
generator state and the inputs, so two simulators holding equal streams at
equal positions (in particular, two freshly constructed simulators with the
same seed) produce identical records for the same invocation. -/
theorem C3_fixed_state_determinism (s : Simulator) (hh : Household)
    (scen : String) (N H : Nat) (st1 st2 : SimState)
    (hs : st1.stream = st2.stream) (hp : st1.pos = st2.pos) :
    s.simulate_household hh scen N H st1 = s.simulate_household hh scen N H st2 := by
  obtain ⟨d1, p1⟩ := st1
  obtain ⟨d2, p2⟩ := st2
  simp only at hs hp
  subst hs; subst hp
  rfl

/-- Witness for C3's amended determinism at a concrete state pair. -/
theorem C3_fixed_state_determinism_witness :
    (SimState.mk exDSeq 0).stream = (SimState.mk exDSeq 0).stream
    ∧ exSimulator.simulate_household exHHRent "Keep Renting" 1 2 ⟨exDSeq, 0⟩ =
        exSimulator.simulate_household exHHRent "Keep Renting" 1 2 ⟨exDSeq, 0⟩ :=
  ⟨rfl, C3_fixed_state_determinism exSimulator exHHRent "Keep Renting" 1 2
    ⟨exDSeq, 0⟩ ⟨exDSeq, 0⟩ rfl rfl⟩

/-! ### Dispatch lemmas -/

theorem scenarios_eq_none (name : String) (h1 : name ≠ "Keep Renting")
    (h2 : name ≠ "Buy Starter Home") (h3 : name ≠ "Buy Standard Home")
    (h4 : name ≠ "Buy Premium Home") : scenarios name = none := by
  unfold scenarios
  rw [if_neg h1, if_neg h2, if_neg h3, if_neg h4]

theorem simulate_household_buying_branch (s : Simulator) (hh : Household)
    (name : String) (N H : Nat) (st : SimState) (hne : name ≠ "Keep Renting") :
    s.simulate_household hh name N H st =
      (s.simulate_buying hh name N H st).map
        (fun out => (ResultRecord.buying out.1, out.2)) := by
  unfold Simulator.simulate_household Simulator.simulate_buying
    simulate_household_core
  rw [if_neg hne]
  cases simulate_buying_core s.income_growth s.insurance_increase
    s.affordability_threshold hh name N H st.stream st.pos <;> rfl

/-- Claim C7: a scenario name outside the catalog makes the simulator fail
with a lookup error (no result record); a catalog key dispatches to the
renting simulator exactly when the name is 'Keep Renting' and to the buying
simulator otherwise. -/
theorem C7_scenario_dispatch (s : Simulator) (hh : Household) (name : String)
    (N H : Nat) (st : SimState) :
    (name ∉ (["Keep Renting", "Buy Starter Home", "Buy Standard Home",
        "Buy Premium Home"] : List String) →
      s.simulate_household hh name N H st = none)
    ∧ (name = "Keep Renting" →
      s.simulate_household hh name N H st =
        some (ResultRecord.renting (s.simulate_renting hh N H st).1,
          (s.simulate_renting hh N H st).2))
    ∧ (name ∈ (["Keep Renting", "Buy Starter Home", "Buy Standard Home",
        "Buy Premium Home"] : List String) → name ≠ "Keep Renting" →
      (scenarios name).isSome = true
      ∧ s.simulate_household hh name N H st =
          (s.simulate_buying hh name N H st).map
            (fun out => (ResultRecord.buying out.1, out.2))) := by
  refine ⟨?_, ?_, ?_⟩
  · intro hmem
    simp only [List.mem_cons, List.not_mem_nil, or_false, not_or] at hmem
    obtain ⟨h1, h2, h3, h4⟩ := hmem
    rw [simulate_household_buying_branch s hh name N H st h1]
    unfold Simulator.simulate_buying simulate_buying_core
    rw [scenarios_eq_none name h1 h2 h3 h4]
    rfl
  · intro he
    subst he
    unfold Simulator.simulate_household Simulator.simulate_renting
      simulate_household_core
    rw [if_pos rfl]
  · intro hmem hne
    refine ⟨?_, simulate_household_buying_branch s hh name N H st hne⟩
    simp only [List.mem_cons, List.not_mem_nil, or_false] at hmem
    rcases hmem with he | he | he | he <;> subst he
    · exact absurd rfl hne
    all_goals rfl

/-- Witness for C7 at the non-catalog name 'Buy Condo'. -/
theorem C7_scenario_dispatch_witness :
    ("Buy Condo" ∉ (["Keep Renting", "Buy Starter Home", "Buy Standard Home",
        "Buy Premium Home"] : List String))
    ∧ exSimulator.simulate_household exHHRent "Buy Condo" 2 3 ⟨exDSeq, 0⟩ = none :=
  ⟨by decide,
    (C7_scenario_dispatch exSimulator exHHRent "Buy Condo" 2 3 ⟨exDSeq, 0⟩).1
      (by decide)⟩

/-! ### Months-solvent lemmas -/

theorem rentMonthLoop_unaffordable (rent mi : ℚ) (m : Nat)
    (h : ¬(rent / mi ≤ 0.35)) : rentMonthLoop rent mi m = (0, 0) := by
  cases m with
  | zero => rfl
  | succ m =>
    unfold rentMonthLoop
    rw [if_neg h]

theorem rentMonthLoop_le (rent mi : ℚ) : ∀ m, (rentMonthLoop rent mi m).2 ≤ m := by
  intro m
  induction m with
  | zero => exact Nat.le_refl 0
  | succ m ih =>
    unfold rentMonthLoop
    split
    · simp only []
      omega
    · exact Nat.zero_le _

theorem rentYearLoop_months_dvd (ig : ℚ) (d : Draws) (y : Nat) :
    ∀ (rent income tc : ℚ) (months p : Nat), months % 12 = 0 →
    (rentYearLoop ig d y rent income tc months p).months_affordable % 12 = 0 := by
  induction y with
  | zero => intro rent income tc months p h; exact h
  | succ y ih =>
    intro rent income tc months p h
    simp only [rentYearLoop]
    split
    · exact ih _ _ _ _ _ (by omega)
    next hc =>
      rw [rentMonthLoop_unaffordable _ _ 12 hc]
      simpa using h

theorem rentYearLoop_months_le (ig : ℚ) (d : Draws) (y : Nat) :
    ∀ (rent income tc : ℚ) (months p : Nat),
    (rentYearLoop ig d y rent income tc months p).months_affordable ≤ months + 12 * y := by
  induction y with
  | zero => intro rent income tc months p; simp [rentYearLoop]
  | succ y ih =>
    intro rent income tc months p
    simp only [rentYearLoop]
    split
    · have := ih (rent * (1 + triangularDraw 0.03 0.05 0.10 (d p)))
        (income * (1 + normalDraw ig 0.08 (d (p + 1))))
        (tc + rent * (1 + triangularDraw 0.03 0.05 0.10 (d p)) * 12)
        (months + 12) (p + 2)
      omega
    · have := rentMonthLoop_le
        (rent * (1 + triangularDraw 0.03 0.05 0.10 (d p)))
        (income * (1 + normalDraw ig 0.08 (d (p + 1))) / 12) 12
      simp only []
      omega

theorem buyMonthLoop_months_aff (thr ratio tm ir mm : ℚ) (d : Draws)
    (hc : ratio ≤ thr) : ∀ (m : Nat) (tc bal : ℚ) (months p : Nat),
    (buyMonthLoop thr ratio tm ir mm d m tc bal months p).months_affordable
      = months + m := by
  intro m
  induction m with
  | zero => intro tc bal months p; rfl
  | succ m ih =>
    intro tc bal months p
    simp only [buyMonthLoop]
    rw [if_pos hc, ih]
    omega

theorem buyMonthLoop_months_unaff (thr ratio tm ir mm : ℚ) (d : Draws)
    (hc : ¬(ratio ≤ thr)) : ∀ (m : Nat) (tc bal : ℚ) (months p : Nat),
    (buyMonthLoop thr ratio tm ir mm d m tc bal months p).months_affordable
      = months := by
  intro m
  induction m with
  | zero => intro tc bal months p; rfl
  | succ m ih =>
    intro tc bal months p
    simp only [buyMonthLoop]
    rw [if_neg hc]
    split
    · rfl
    · exact ih _ _ _ _

theorem buyMonthLoop_months_mod12 (thr ratio tm ir mm : ℚ) (d : Draws)
    (m : Nat) (tc bal : ℚ) (months p : Nat) :
    (buyMonthLoop thr ratio tm ir mm d m tc bal months p).months_affordable % 12
      = (months + m * (if ratio ≤ thr then 1 else 0)) % 12 := by
  split
  next hc => rw [buyMonthLoop_months_aff thr ratio tm ir mm d hc]; omega
  next hc => rw [buyMonthLoop_months_unaff thr ratio tm ir mm d hc]; omega

theorem buyYearLoop_months_dvd (ig ii thr : ℚ)
    (params : HousingScenarioParameters) (ir mm hoa : ℚ) (d : Draws) (y : Nat) :
    ∀ (st : BuyState) (p : Nat), st.months_affordable % 12 = 0 →
    ((buyYearLoop ig ii thr params ir mm hoa d y st p).1).months_affordable % 12 = 0 := by
  induction y with
  | zero => intro st p h; exact h
  | succ y ih =>
    intro st p h
    simp only [buyYearLoop]
    split
    · simp only [buyMonthLoop_months_mod12]
      split <;> omega
    · apply ih
      simp only [buyMonthLoop_months_mod12]
      split <;> omega

/-- Claim C9: every trial of the renting and of the buying simulator reports
a months-solvent count that is a multiple of 12: within a year the
affordability ratio is fixed, so a year contributes either 12 or 0 solvent
months. -/
theorem C9_months_multiple_of_12 (ig ii thr : ℚ)
    (params : HousingScenarioParameters) (adj : RegionAdjustment)
    (hh : Household) (H : Nat) (d : Draws) (p : Nat) :
    (rentTrial ig hh H d p).months_affordable % 12 = 0
    ∧ (buyTrial ig ii thr params adj hh H d p).months_solvent % 12 = 0 := by
  constructor
  · exact rentYearLoop_months_dvd ig d H _ _ _ 0 p rfl
  · simp only [buyTrial]
    split
    · rfl
    · exact buyYearLoop_months_dvd ig ii thr params _ _ _ d H _ _ rfl

/-! ### Probability partition lemmas -/

theorem count_partition (M : Nat) : ∀ (l : List Nat), (∀ x ∈ l, x ≤ M) →
    (l.filter (fun m => m = M)).length + (l.filter (fun m => m < M)).length
      = l.length := by
  intro l
  induction l with
  | nil => intro _; rfl
  | cons x xs ih =>
    intro h
    have hx := h x (List.mem_cons_self x xs)
    have hxs := fun z hz => h z (List.mem_cons_of_mem x hz)
    rcases Nat.lt_or_ge x M with hlt | hge
    · have h1 : (decide (x = M)) = false := by simp; omega
      have h2 : (decide (x < M)) = true := by simpa using hlt
      have hih := ih hxs
      simp [List.filter_cons, h1, h2, List.length_cons]
      omega
    · have he : x = M := Nat.le_antisymm hx hge
      have h1 : (decide (x = M)) = true := by simpa using he
      have h2 : (decide (x < M)) = false := by simp; omega
      have hih := ih hxs
      simp [List.filter_cons, h1, h2, List.length_cons]
      omega

theorem rentTrials_length (ig : ℚ) (hh : Household) (H : Nat) (d : Draws) :
    ∀ (n p : Nat), ((rentTrials ig hh H d n p).1).length = n := by
  intro n
  induction n with
  | zero => intro p; rfl
  | succ n ih =>
    intro p
    simp only [rentTrials, List.length_cons, ih]

theorem rentTrials_months_le (ig : ℚ) (hh : Household) (H : Nat) (d : Draws) :
    ∀ (n p : Nat) (t : RentTrialOut), t ∈ (rentTrials ig hh H d n p).1 →
    t.months_affordable ≤ H * 12 := by
  intro n
  induction n with
  | zero => intro p t ht; simp [rentTrials] at ht
  | succ n ih =>
    intro p t ht
    simp only [rentTrials, List.mem_cons] at ht
    rcases ht with he | hm
    · subst he
      have := rentYearLoop_months_le ig d H hh.current_monthly_rent
        hh.annual_income 0 0 p
      unfold rentTrial
      omega
    · exact ih _ t hm

/-- Claim C6: for every renting run with a positive trial count the reported
probability_affordable and probability_unaffordable sum exactly to 1, since
every trial's months-solvent count is at most 12 times the horizon and the
two counted events partition the trial set. -/
theorem C6_probabilities_sum (ig : ℚ) (hh : Household) (N H : Nat)
    (d : Draws) (p : Nat) (hN : 0 < N) :
    (simulate_renting_core ig hh N H d p).1.probability_affordable
      + (simulate_renting_core ig hh N H d p).1.probability_unaffordable = 1 := by
  simp only [simulate_renting_core]
  have hmem : ∀ x ∈ ((rentTrials ig hh H d N p).1).map
      (fun t => t.months_affordable), x ≤ H * 12 := by
    intro x hx
    obtain ⟨t, ht, rfl⟩ := List.mem_map.1 hx
    exact rentTrials_months_le ig hh H d N p t ht
  have hpart := count_partition (H * 12)
    (((rentTrials ig hh H d N p).1).map (fun t => t.months_affordable)) hmem
  have hlen : (((rentTrials ig hh H d N p).1).map
      (fun t => t.months_affordable)).length = N := by
    rw [List.length_map, rentTrials_length]
  rw [div_add_div_same]
  rw [← Nat.cast_add, hpart, hlen]
  exact div_self (Nat.cast_ne_zero.2 (Nat.pos_iff_ne_zero.1 hN))

/-- Witness for C6 at one concrete renting run. -/
theorem C6_probabilities_sum_witness :
    0 < 1
    ∧ (simulate_renting_core 0.04 exHHRent 1 1 exDZero 0).1.probability_affordable
      + (simulate_renting_core 0.04 exHHRent 1 1 exDZero 0).1.probability_unaffordable
      = 1 :=
  ⟨Nat.one_pos, C6_probabilities_sum 0.04 exHHRent 1 1 exDZero 0 Nat.one_pos⟩

/-- Claim C1 (amended): in every buying run with at least one trial, equity
mean/median come from the non-defaulted subset falling back to the full
trial set, and equity percentile bands from the full set; but the
monthly-cost statistics — mean, median and both percentile bands — all come
from the non-defaulted subset, falling back to the scalar 0 (not to the
full set) when every trial defaulted. -/
theorem C1_aggregation_subsets (ig ii thr : ℚ) (hh : Household)
    (name : String) (N H : Nat) (d : Draws) (p : Nat)
    (params : HousingScenarioParameters) (ts : List BuyTrialOut)
    (hts : ts = (buyTrials ig ii thr params (region_adjustments hh.region)
      hh H d N p).1)
    (hp : scenarios name = some params) (hN : 0 < N) :
    simulate_buying_core ig ii thr hh name N H d p =
      some (aggregateBuying hh name N H ts,
        (buyTrials ig ii thr params (region_adjustments hh.region) hh H d N p).2)
    ∧ (aggregateBuying hh name N H ts).final_monthly_cost =
      ⟨if 0 < (ts.filter (fun t => !t.default_occurred)).length then
          listMean ((ts.filter (fun t => !t.default_occurred)).map (·.monthly_cost))
        else 0,
        if 0 < (ts.filter (fun t => !t.default_occurred)).length then
          npMedian ((ts.filter (fun t => !t.default_occurred)).map (·.monthly_cost))
        else 0,
        if 0 < (ts.filter (fun t => !t.default_occurred)).length then
          percentile ((ts.filter (fun t => !t.default_occurred)).map (·.monthly_cost)) 5
        else 0,
        if 0 < (ts.filter (fun t => !t.default_occurred)).length then
          percentile ((ts.filter (fun t => !t.default_occurred)).map (·.monthly_cost)) 95
        else 0⟩
    ∧ (aggregateBuying hh name N H ts).equity_built =
      ⟨if 0 < (ts.filter (fun t => !t.default_occurred)).length then
          listMean ((ts.filter (fun t => !t.default_occurred)).map (·.final_equity))
        else listMean (ts.map (·.final_equity)),
        if 0 < (ts.filter (fun t => !t.default_occurred)).length then
          npMedian ((ts.filter (fun t => !t.default_occurred)).map (·.final_equity))
        else npMedian (ts.map (·.final_equity)),
        percentile (ts.map (·.final_equity)) 5,
        percentile (ts.map (·.final_equity)) 95⟩ := by
  refine ⟨?_, rfl, rfl⟩
  subst hts
  unfold simulate_buying_core
  rw [hp]

/-- Witness for C1's amended aggregation: a two-trial run, one failed-entry
trial and one completing trial. -/
theorem C1_aggregation_subsets_witness :
    scenarios "Buy Starter Home" = some exStarter
    ∧ 0 < 2
    ∧ simulate_buying_core 0.04 0.08 0.5 exHHAgg "Buy Starter Home" 2 0 exDAgg 0 =
      some (aggregateBuying exHHAgg "Buy Starter Home" 2 0
        (buyTrials 0.04 0.08 0.5 exStarter (region_adjustments exHHAgg.region)
          exHHAgg 0 exDAgg 2 0).1,
        (buyTrials 0.04 0.08 0.5 exStarter (region_adjustments exHHAgg.region)
          exHHAgg 0 exDAgg 2 0).2) :=
  ⟨rfl, Nat.zero_lt_two,
    (C1_aggregation_subsets 0.04 0.08 0.5 exHHAgg "Buy Starter Home" 2 0 exDAgg 0
      exStarter _ rfl rfl Nat.zero_lt_two).1⟩

/-- Claim C1 (counterexample): in this two-trial run (one defaulted, one
not), the reported 95th-percentile monthly-cost band differs from the 95th
percentile of the full trial set, so the percentile bands are not computed
over the full set. -/
theorem C1_counterexample_full_set_percentile :
    (simulate_buying_core 0.04 0.08 0.5 exHHAgg "Buy Starter Home" 2 0 exDAgg 0).isSome = true
    ∧ (simulate_buying_core 0.04 0.08 0.5 exHHAgg "Buy Starter Home" 2 0 exDAgg 0).map
        (fun out => out.1.final_monthly_cost.percentile_95) ≠
      some (percentile (((buyTrials 0.04 0.08 0.5 exStarter
        (region_adjustments exHHAgg.region) exHHAgg 0 exDAgg 2 0).1).map
        (·.monthly_cost)) 95) := by
  with_unfolding_all decide

/-! ### Timeline monotonicity lemmas -/

theorem isNondecr_replicate (c : ℚ) : ∀ n, isNondecr (List.replicate n c) = true := by
  intro n
  induction n with
  | zero => rfl
  | succ n ih =>
    cases n with
    | zero => rfl
    | succ k =>
      simp only [List.replicate, isNondecr] at *
      rw [if_pos (le_refl c)]
      exact ih

theorem timelineRentYears_nondecr (ig : ℚ) (d : Draws) (y : Nat) :
    ∀ (rent income cum : ℚ) (p : Nat), 0 ≤ rent →
    isNondecr (cum :: (timelineRentYears ig d y rent income cum p).1.total_paid)
      = true := by
  induction y with
  | zero => intro rent income cum p _; rfl
  | succ y ih =>
    intro rent income cum p hrent
    simp only [timelineRentYears]
    have htri := triangularDraw_ge 0.03 0.05 0.10 (d p) (by norm_num)
    have hR1 : (0:ℚ) ≤ rent * (1 + triangularDraw 0.03 0.05 0.10 (d p)) :=
      mul_nonneg hrent (by linarith)
    have hle : cum ≤ cum + rent * (1 + triangularDraw 0.03 0.05 0.10 (d p)) * 12 := by
      nlinarith
    rw [isNondecr, if_pos hle]
    exact ih _ _ _ _ hR1

theorem timelineBuyMonths_cum_mono (ir mm tm : ℚ) (htm : 0 ≤ tm) :
    ∀ (m : Nat) (bal cum : ℚ), cum ≤ (timelineBuyMonths ir mm tm m bal cum).2 := by
  intro m
  induction m with
  | zero => intro bal cum; exact le_refl cum
  | succ m ih =>
    intro bal cum
    simp only [timelineBuyMonths]
    have := ih (bal - (mm - bal * (ir / 12))) (cum + tm)
    linarith

theorem timelineBuyYears_nondecr (ig ii : ℚ)
    (params : HousingScenarioParameters) (ir mm hoa : ℚ) (d : Draws)
    (hmm : 0 ≤ mm) (hhoa : 0 ≤ hoa) (htax : 0 ≤ params.property_tax_rate)
    (hmaint : 0 ≤ params.maintenance_annual_pct)
    (happ : ∀ n, 0 ≤ 1 + normalDraw params.appreciation_mean
      params.appreciation_std (d n)) (y : Nat) :
    ∀ (income value bal ins cum : ℚ) (p : Nat), 0 ≤ value → 0 ≤ ins →
    isNondecr (cum :: (timelineBuyYears ig ii params ir mm hoa d y income
      value bal ins cum p).1.total_paid) = true := by
  induction y with
  | zero => intro income value bal ins cum p _ _; rfl
  | succ y ih =>
    intro income value bal ins cum p hv hi
    simp only [timelineBuyYears]
    set v1 := value * (1 + normalDraw params.appreciation_mean
      params.appreciation_std (d (p + 1))) with hv1def
    set i1 := ins * (1 + triangularDraw 0.03 (npClip ii 0.03 0.12) 0.12
      (d (p + 2))) with hi1def
    have hv1 : 0 ≤ v1 := mul_nonneg hv (happ (p + 1))
    have htri := triangularDraw_ge 0.03 (npClip ii 0.03 0.12) 0.12 (d (p + 2))
      (by norm_num)
    have hi1 : 0 ≤ i1 := mul_nonneg hi (by linarith)
    have htm : 0 ≤ mm + v1 * params.property_tax_rate / 12 + i1 + hoa
        + v1 * params.maintenance_annual_pct / 12 := by
      have h1 : 0 ≤ v1 * params.property_tax_rate / 12 :=
        div_nonneg (mul_nonneg hv1 htax) (by norm_num)
      have h2 : 0 ≤ v1 * params.maintenance_annual_pct / 12 :=
        div_nonneg (mul_nonneg hv1 hmaint) (by norm_num)
      linarith
    have hcum := timelineBuyMonths_cum_mono ir mm
      (mm + v1 * params.property_tax_rate / 12 + i1 + hoa
        + v1 * params.maintenance_annual_pct / 12) htm 12 bal cum
    rw [isNondecr, if_pos hcum]
    exact ih _ _ _ _ _ _ hv1 hi1

/-- Claim C5 (amended): in the Timeline Projector, the year-0 equity is 0
for renting, and equals the down payment for a buying trial that passes the
entry gate (a failed-entry trial instead records a flat loss series); the
cumulative-cost series is non-decreasing within every trial, given
non-negative household and scenario inputs and appreciation draws that keep
the home value non-negative. -/
theorem C5_timeline (ig ii : ℚ) (params : HousingScenarioParameters)
    (adj : RegionAdjustment) (hh : Household) (H : Nat) (d : Draws) (p : Nat)
    (hrent : 0 ≤ hh.current_monthly_rent)
    (hpmin : 0 ≤ params.home_price_min)
    (hminmax : params.home_price_min ≤ params.home_price_max)
    (hdp1 : params.down_payment_pct ≤ 1)
    (htax : 0 ≤ params.property_tax_rate)
    (hmaint : 0 ≤ params.maintenance_annual_pct)
    (hins : 0 ≤ params.hurricane_insurance_annual)
    (hhoa : 0 ≤ params.hoa_monthly)
    (hmult : 0 ≤ adj.price_multiplier)
    (hinsm : 0 ≤ adj.insurance_multiplier)
    (happ : ∀ n, 0 ≤ 1 + normalDraw params.appreciation_mean
      params.appreciation_std (d n)) :
    (timelineRentTrial ig hh H d p).1.equity.getD 0 0 = 0
    ∧ isNondecr ((timelineRentTrial ig hh H d p).1.total_paid) = true
    ∧ (¬(hh.savings < drawnHomePrice params adj (d p) * params.down_payment_pct
        + drawnHomePrice params adj (d p) * params.closing_costs_pct) →
      (timelineBuyTrial ig ii params adj hh H d p).1.equity.getD 0 0 =
        drawnHomePrice params adj (d p) * params.down_payment_pct)
    ∧ isNondecr ((timelineBuyTrial ig ii params adj hh H d p).1.total_paid) = true := by
  have hHP : 0 ≤ drawnHomePrice params adj (d p) :=
    mul_nonneg (le_trans hpmin (uniformDraw_ge _ _ _ hminmax)) hmult
  refine ⟨rfl, ?_, ?_, ?_⟩
  · simp only [timelineRentTrial]
    exact timelineRentYears_nondecr ig d H _ _ 0 p hrent
  · intro hg
    simp only [timelineBuyTrial]
    rw [if_neg hg]
    rfl
  · simp only [timelineBuyTrial]
    split
    · exact isNondecr_replicate _ _
    · have hloan : 0 ≤ drawnHomePrice params adj (d p)
          - drawnHomePrice params adj (d p) * params.down_payment_pct := by
        nlinarith
      have hMM : 0 ≤ monthlyMortgagePayment
          (drawnHomePrice params adj (d p)
            - drawnHomePrice params adj (d p) * params.down_payment_pct)
          (drawnInterestRate params hh.credit_score (d (p + 1))) :=
        monthlyMortgagePayment_nonneg _ _ hloan
          (drawnInterestRate_ge params hh.credit_score (d (p + 1)))
      have hins0 : 0 ≤ params.hurricane_insurance_annual
          * adj.insurance_multiplier / 12 :=
        div_nonneg (mul_nonneg hins hinsm) (by norm_num)
      exact timelineBuyYears_nondecr ig ii params _ _ _ d hMM hhoa htax
        hmaint happ H _ _ _ _ _ _ hHP hins0

/-- Witness for C5 at a gate-passing starter-home trial over one year. -/
theorem C5_timeline_witness :
    (0:ℚ) ≤ exHHNeg.current_monthly_rent
    ∧ (0:ℚ) ≤ exStarter.home_price_min
    ∧ exStarter.home_price_min ≤ exStarter.home_price_max
    ∧ exStarter.down_payment_pct ≤ 1
    ∧ ¬(exHHNeg.savings < drawnHomePrice exStarter (region_adjustments exHHNeg.region)
          (exDZero 0) * exStarter.down_payment_pct
        + drawnHomePrice exStarter (region_adjustments exHHNeg.region)
          (exDZero 0) * exStarter.closing_costs_pct)
    ∧ (timelineRentTrial 0.04 exHHNeg 1 exDZero 0).1.equity.getD 0 0 = 0
    ∧ (timelineBuyTrial 0.04 0.08 exStarter (region_adjustments exHHNeg.region)
        exHHNeg 1 exDZero 0).1.equity.getD 0 0 =
      drawnHomePrice exStarter (region_adjustments exHHNeg.region) (exDZero 0)
        * exStarter.down_payment_pct
    ∧ isNondecr ((timelineBuyTrial 0.04 0.08 exStarter
        (region_adjustments exHHNeg.region) exHHNeg 1 exDZero 0).1.total_paid) = true := by
  have happ : ∀ n, 0 ≤ 1 + normalDraw exStarter.appreciation_mean
      exStarter.appreciation_std (exDZero n) := by
    intro n
    norm_num [normalDraw, exDZero, exStarter]
  have hg : ¬(exHHNeg.savings < drawnHomePrice exStarter
      (region_adjustments exHHNeg.region) (exDZero 0) * exStarter.down_payment_pct
      + drawnHomePrice exStarter (region_adjustments exHHNeg.region)
        (exDZero 0) * exStarter.closing_costs_pct) := by
    with_unfolding_all decide
  have hmain := C5_timeline 0.04 0.08 exStarter
    (region_adjustments exHHNeg.region) exHHNeg 1 exDZero 0
    (by norm_num [exHHNeg]) (by norm_num [exStarter]) (by norm_num [exStarter])
    (by norm_num [exStarter]) (by norm_num [exStarter]) (by norm_num [exStarter])
    (by norm_num [exStarter]) (by norm_num [exStarter])
    (by with_unfolding_all decide) (by with_unfolding_all decide) happ
  exact ⟨by norm_num [exHHNeg], by norm_num [exStarter], by norm_num [exStarter],
    by norm_num [exStarter], hg, hmain.1, hmain.2.2.1 hg, hmain.2.2.2⟩

/-- Claim C5 (counterexample): for a buying trial that fails the entry gate
the Timeline Projector's year-0 equity is the flat loss value, not the down
payment. -/
theorem C5_counterexample_failed_entry_year0 :
    (timelineBuyTrial 0.04 0.08 exStarter (region_adjustments exHHGate.region)
        exHHGate 1 exDZero 0).1.equity.getD 0 0 ≠
      drawnHomePrice exStarter (region_adjustments exHHGate.region) (exDZero 0)
        * exStarter.down_payment_pct := by
  with_unfolding_all decide

/-! ### Buying cost invariants -/

theorem buyMonthLoop_tc_mono (thr ratio tm ir mm : ℚ) (d : Draws)
    (htm : 0 ≤ tm) : ∀ (m : Nat) (tc bal : ℚ) (months p : Nat),
    tc ≤ (buyMonthLoop thr ratio tm ir mm d m tc bal months p).total_costs := by
  intro m
  induction m with
  | zero => intro tc bal months p; exact le_refl tc
  | succ m ih =>
    intro tc bal months p
    simp only [buyMonthLoop]
    split
    · have := ih (tc + tm) (bal - (mm - bal * (ir / 12))) (months + 1) p
      linarith
    · split
      · exact le_refl tc
      · exact ih tc bal months (p + 1)

theorem buyYearLoop_nonneg (ig ii thr : ℚ)
    (params : HousingScenarioParameters) (ir mm hoa : ℚ) (d : Draws)
    (hmm : 0 ≤ mm) (hhoa : 0 ≤ hoa) (htax : 0 ≤ params.property_tax_rate)
    (hmaint : 0 ≤ params.maintenance_annual_pct)
    (happ : ∀ n, 0 ≤ 1 + normalDraw params.appreciation_mean
      params.appreciation_std (d n)) (y : Nat) :
    ∀ (st : BuyState) (p : Nat), 0 ≤ st.home_value →
      0 ≤ st.monthly_insurance → 0 ≤ st.total_costs →
    0 ≤ ((buyYearLoop ig ii thr params ir mm hoa d y st p).1).total_costs := by
  induction y with
  | zero => intro st p _ _ h3; exact h3
  | succ y ih =>
    intro st p hv hi htc
    simp only [buyYearLoop]
    set v1 := st.home_value * (1 + normalDraw params.appreciation_mean
      params.appreciation_std (d (p + 1))) with hv1def
    set i1 := st.monthly_insurance * (1 + triangularDraw 0.03
      (npClip ii 0.03 0.12) 0.12 (d (p + 2))) with hi1def
    set im1 := st.income * (1 + normalDraw ig 0.08 (d p)) with him1def
    have hv1 : 0 ≤ v1 := mul_nonneg hv (happ (p + 1))
    have htri := triangularDraw_ge 0.03 (npClip ii 0.03 0.12) 0.12 (d (p + 2))
      (by norm_num)
    have hi1 : 0 ≤ i1 := mul_nonneg hi (by linarith)
    have hu := uniformDraw_ge 0.8 1.5 (d (p + 3)) (by norm_num)
    set tmv := mm + v1 * params.property_tax_rate / 12 + i1 + hoa
      + v1 * params.maintenance_annual_pct / 12 * uniformDraw 0.8 1.5 (d (p + 3))
      with htmvdef
    have htm : 0 ≤ tmv := by
      have h1 : 0 ≤ v1 * params.property_tax_rate / 12 :=
        div_nonneg (mul_nonneg hv1 htax) (by norm_num)
      have h2 : 0 ≤ v1 * params.maintenance_annual_pct / 12
          * uniformDraw 0.8 1.5 (d (p + 3)) :=
        mul_nonneg (div_nonneg (mul_nonneg hv1 hmaint) (by norm_num))
          (by linarith)
      rw [htmvdef]
      linarith
    have hmono := buyMonthLoop_tc_mono thr (tmv / (im1 / 12)) tmv ir mm d htm
      12 st.total_costs st.loan_balance st.months_affordable (p + 4)
    split
    · simp only []
      linarith
    · apply ih
      · exact hv1
      · exact hi1
      · simp only []
        linarith

/-- Claim C4 (amended): in a buying trial with non-negative household and
scenario inputs whose appreciation draws keep the home value non-negative,
a trial ending with the default flag reports equity at most 0; for a trial
passing the entry gate the reported equity is
-(down payment + closing costs + 0.2 x cumulative cost) when the default
flag was set by a default draw, and final home value - max(0, remaining
loan balance) otherwise, with the reported total cost equal to the loop's
cumulative cost. -/
theorem C4_equity_accounting (ig ii thr : ℚ)
    (params : HousingScenarioParameters) (adj : RegionAdjustment)
    (hh : Household) (H : Nat) (d : Draws) (p : Nat)
    (hsav : 0 ≤ hh.savings)
    (hpmin : 0 ≤ params.home_price_min)
    (hminmax : params.home_price_min ≤ params.home_price_max)
    (hdp0 : 0 ≤ params.down_payment_pct)
    (hdp1 : params.down_payment_pct ≤ 1)
    (hccp : 0 ≤ params.closing_costs_pct)
    (htax : 0 ≤ params.property_tax_rate)
    (hmaint : 0 ≤ params.maintenance_annual_pct)
    (hins : 0 ≤ params.hurricane_insurance_annual)
    (hhoa : 0 ≤ params.hoa_monthly)
    (hmult : 0 ≤ adj.price_multiplier)
    (hinsm : 0 ≤ adj.insurance_multiplier)
    (happ : ∀ n, 0 ≤ 1 + normalDraw params.appreciation_mean
      params.appreciation_std (d n)) :
    ((buyTrial ig ii thr params adj hh H d p).default_occurred = true →
      (buyTrial ig ii thr params adj hh H d p).final_equity ≤ 0)
    ∧ (¬(hh.savings < drawnHomePrice params adj (d p) * params.down_payment_pct
          + drawnHomePrice params adj (d p) * params.closing_costs_pct) →
        (buyTrial ig ii thr params adj hh H d p).default_occurred =
          (buyTrialLoopOut ig ii thr params adj hh H d p).1.defaulted
        ∧ (buyTrial ig ii thr params adj hh H d p).total_paid =
            (buyTrialLoopOut ig ii thr params adj hh H d p).1.total_costs
        ∧ ((buyTrialLoopOut ig ii thr params adj hh H d p).1.defaulted = true →
            (buyTrial ig ii thr params adj hh H d p).final_equity =
              -(drawnHomePrice params adj (d p) * params.down_payment_pct
                + drawnHomePrice params adj (d p) * params.closing_costs_pct
                + (buyTrialLoopOut ig ii thr params adj hh H d p).1.total_costs * 0.2))
        ∧ ((buyTrialLoopOut ig ii thr params adj hh H d p).1.defaulted = false →
            (buyTrial ig ii thr params adj hh H d p).final_equity =
              (buyTrialLoopOut ig ii thr params adj hh H d p).1.home_value
                - qmax 0 (buyTrialLoopOut ig ii thr params adj hh H d p).1.loan_balance)) := by
  have hHP : 0 ≤ drawnHomePrice params adj (d p) :=
    mul_nonneg (le_trans hpmin (uniformDraw_ge _ _ _ hminmax)) hmult
  have hdp : 0 ≤ drawnHomePrice params adj (d p) * params.down_payment_pct :=
    mul_nonneg hHP hdp0
  have hcc : 0 ≤ drawnHomePrice params adj (d p) * params.closing_costs_pct :=
    mul_nonneg hHP hccp
  have htcOut : 0 ≤ (buyTrialLoopOut ig ii thr params adj hh H d p).1.total_costs := by
    have hloan : 0 ≤ drawnHomePrice params adj (d p)
        - drawnHomePrice params adj (d p) * params.down_payment_pct := by
      nlinarith
    have hMM : 0 ≤ monthlyMortgagePayment
        (drawnHomePrice params adj (d p)
          - drawnHomePrice params adj (d p) * params.down_payment_pct)
        (drawnInterestRate params hh.credit_score (d (p + 1))) :=
      monthlyMortgagePayment_nonneg _ _ hloan
        (drawnInterestRate_ge params hh.credit_score (d (p + 1)))
    have hins0 : 0 ≤ params.hurricane_insurance_annual
        * adj.insurance_multiplier / 12 :=
      div_nonneg (mul_nonneg hins hinsm) (by norm_num)
    unfold buyTrialLoopOut
    exact buyYearLoop_nonneg ig ii thr params _ _ _ d hMM hhoa htax hmaint
      happ H _ _ hHP hins0 (by simp only []; linarith)
  constructor
  · intro hdef
    by_cases hg : hh.savings < drawnHomePrice params adj (d p) * params.down_payment_pct
        + drawnHomePrice params adj (d p) * params.closing_costs_pct
    · simp only [buyTrial] at hdef ⊢
      rw [if_pos hg] at hdef ⊢
      simp only [] at hdef ⊢
      split_ifs <;> linarith
    · simp only [buyTrial] at hdef ⊢
      rw [if_neg hg] at hdef ⊢
      simp only [] at hdef ⊢
      rw [if_pos hdef]
      linarith
  · intro hg
    refine ⟨?_, ?_, ?_, ?_⟩
    · simp only [buyTrial]
      rw [if_neg hg]
    · simp only [buyTrial]
      rw [if_neg hg]
    · intro hdef
      simp only [buyTrial]
      rw [if_neg hg]
      simp only []
      rw [if_pos hdef]
    · intro hnd
      simp only [buyTrial]
      rw [if_neg hg]
      simp only []
      rw [if_neg (by rw [hnd]; exact Bool.false_ne_true)]

/-- Claim C4 (counterexample): a household with non-negative inputs whose
trial defaults can report strictly positive equity, because an appreciation
draw below -100% makes the home value and the running monthly costs hugely
negative, driving the cumulative cost below -5x the entry costs. -/
theorem C4_counterexample_positive_equity_default :
    (0:ℚ) ≤ exHHNeg.annual_income ∧ (0:ℚ) ≤ exHHNeg.savings
    ∧ (0:ℚ) ≤ exHHNeg.credit_score ∧ (0:ℚ) ≤ exHHNeg.current_monthly_rent
    ∧ (buyTrial 0.04 0.08 0.5 exStarter (region_adjustments exHHNeg.region)
        exHHNeg 2 exDNeg 0).default_occurred = true
    ∧ 0 < (buyTrial 0.04 0.08 0.5 exStarter (region_adjustments exHHNeg.region)
        exHHNeg 2 exDNeg 0).final_equity := by
  with_unfolding_all decide

/-- Witness for C4's amended statement at a defaulting trial driven by an
income collapse, with all non-negativity hypotheses satisfied. -/
theorem C4_equity_accounting_witness :
    (0:ℚ) ≤ exHHNeg.savings
    ∧ (0:ℚ) ≤ exStarter.home_price_min
    ∧ exStarter.home_price_min ≤ exStarter.home_price_max
    ∧ exStarter.down_payment_pct ≤ 1
    ∧ (buyTrial 0.04 0.08 0.5 exStarter (region_adjustments exHHNeg.region)
        exHHNeg 1 exDDef 0).default_occurred = true
    ∧ (buyTrial 0.04 0.08 0.5 exStarter (region_adjustments exHHNeg.region)
        exHHNeg 1 exDDef 0).final_equity ≤ 0 :=
  ⟨by norm_num [exHHNeg], by norm_num [exStarter], by norm_num [exStarter],
    by norm_num [exStarter], by with_unfolding_all decide,
    (C4_equity_accounting 0.04 0.08 0.5 exStarter
      (region_adjustments exHHNeg.region) exHHNeg 1 exDDef 0
      (by norm_num [exHHNeg]) (by norm_num [exStarter]) (by norm_num [exStarter])
      (by norm_num [exStarter]) (by norm_num [exStarter]) (by norm_num [exStarter])
      (by norm_num [exStarter]) (by norm_num [exStarter]) (by norm_num [exStarter])
      (by norm_num [exStarter]) (by with_unfolding_all decide)
      (by with_unfolding_all decide)
      (by
        intro n
        simp only [exDDef, exStarter, normalDraw]
        split <;> norm_num)).1
      (by with_unfolding_all decide)⟩

end FLHousing
